import Mathlib

/-! Verification development for the aura-sign-mvp repository.

Shallow embedding of the parts of the code base the specification claims
talk about: the JavaScript numeric model used by the embedding validators,
the two pgvector helper modules, the SIWE signature-verification snippet
from the security guide, the demo-site API routes, the iron-session based
session manager, and the Prometheus metrics wrapper. -/

/-- Model of a JavaScript number: NaN, one of the two infinities, or a
finite value (modelled as a rational). -/
inductive JsNum where
  | nan
  | inf
  | negInf
  | num (q : ℚ)
deriving DecidableEq

namespace JsNum

/-- JS isNaN applied to a number. -/
def isNaNb : JsNum → Bool
  | nan => true
  | _ => false

/-- JS isFinite applied to a number. -/
def isFiniteb : JsNum → Bool
  | num _ => true
  | _ => false

/-- JS Number.isInteger. -/
def isIntegerb : JsNum → Bool
  | num q => q.den == 1
  | _ => false

/-- The JS comparison x <= 0 (false when x is NaN). -/
def leZero : JsNum → Bool
  | nan => false
  | inf => false
  | negInf => true
  | num q => decide (q ≤ 0)

/-- Textual rendering of a number, as used when the helpers build the
vector literal string passed to the database driver. -/
def render : JsNum → String
  | nan => "NaN"
  | inf => "Infinity"
  | negInf => "-Infinity"
  | num q => toString q

/-- The natural-number value of a validated positive integer limit. -/
def toNatVal : JsNum → ℕ
  | num q => q.num.toNat
  | _ => 0

/-- The rational value of a validated finite number. -/
def toRatVal : JsNum → ℚ
  | num q => q
  | _ => 0

/-- The number is a positive integer (the property the spec asks of a
limit argument). -/
def isPosInt : JsNum → Prop
  | num q => 0 < q ∧ q.den = 1
  | _ => False

/-- The number is positive and finite (the property the spec asks of a
threshold argument). -/
def isPosFinite : JsNum → Prop
  | num q => 0 < q
  | _ => False

end JsNum

/-- A runtime JS value as far as the embedding validators inspect it:
either a number, or some value whose typeof is not number. -/
inductive JsVal where
  | num (n : JsNum)
  | other
deriving DecidableEq

/-- A runtime JS value passed where an array is expected. -/
inductive JsValue where
  | arr (xs : List JsVal)
  | notArr
deriving DecidableEq

/-- Numeric contents of an embedding value; faithful on validated input,
where every element is a finite number. -/
def extractNums (v : JsValue) : List ℚ :=
  match v with
  | .notArr => []
  | .arr xs => xs.filterMap (fun x =>
      match x with
      | .num (.num q) => some q
      | _ => none)

/-- A raw SQL statement handed to the database driver by the helpers:
the statement text plus its rendered parameters.  A helper that returns
an error before producing one of these has issued no database call. -/
structure SqlCall where
  sql : String
  params : List String
deriving DecidableEq

/-- The vector literal string built by both helper modules from an
embedding array. -/
def vectorLiteral (xs : List JsVal) : String :=
  "[" ++ String.intercalate "," (xs.map (fun v =>
    match v with
    | .num n => n.render
    | .other => "?")) ++ "]"

namespace VectorTs

/-! Embedding of packages/database-client/src/vector.ts. -/

/-- The element check of vector.ts validateEmbedding: typeof val is
number and val is not NaN (no isFinite check in this variant). -/
def validNum : JsVal → Bool
  | .num n => !n.isNaNb
  | .other => false

/-- validateEmbedding from vector.ts: throws (modelled as Except.error)
unless the value is a non-empty array whose elements are numbers that are
not NaN.  Note that this variant performs no isFinite check. -/
def validateEmbedding (embedding : JsValue) : Except String Bool :=
  match embedding with
  | .notArr => .error "Embedding must be an array"
  | .arr xs =>
    if xs.length = 0 then .error "Embedding cannot be empty"
    else if xs.all validNum then .ok true
    else .error "Embedding must contain only valid numbers"

/-- The SQL text of the similarity query in vector.ts. -/
def similarSql : String :=
  "SELECT address, ai_embedding <-> $1::vector as distance FROM identity WHERE ai_embedding IS NOT NULL ORDER BY ai_embedding <-> $1::vector LIMIT $2"

/-- findSimilarIdentities from vector.ts: validates the embedding, then
issues the similarity query.  The parameter k is passed through to the
LIMIT placeholder without any validation, and there is no threshold
parameter in this variant. -/
def findSimilarIdentities (embedding : JsValue) (k : JsNum) : Except String SqlCall :=
  match validateEmbedding embedding with
  | .error e => .error e
  | .ok _ =>
    let xs := match embedding with
      | .arr xs => xs
      | .notArr => []
    .ok { sql := similarSql, params := [vectorLiteral xs, k.render] }

/-- The SQL text of the upsert statement in vector.ts. -/
def upsertSql : String :=
  "INSERT INTO identity (address, ai_embedding) VALUES ($1, $2::vector) ON CONFLICT (address) DO UPDATE SET ai_embedding = $2::vector"

/-- upsertIdentityEmbedding from vector.ts: validates the embedding, then
issues the insert-or-update statement keyed by address. -/
def upsertIdentityEmbedding (address : String) (embedding : JsValue) : Except String SqlCall :=
  match validateEmbedding embedding with
  | .error e => .error e
  | .ok _ =>
    let xs := match embedding with
      | .arr xs => xs
      | .notArr => []
    .ok { sql := upsertSql, params := [address, vectorLiteral xs] }

end VectorTs

namespace Part021

/-! Embedding of the unnamed source file src/unnamed/part_021, the second
variant of the pgvector helper module. -/

/-- The element check of part_021 validateEmbedding: typeof val is
number, val is not NaN and val is finite. -/
def validElem : JsVal → Bool
  | .num n => !n.isNaNb && n.isFiniteb
  | .other => false

/-- validateEmbedding from part_021: boolean validity check requiring a
non-empty array of numbers that are neither NaN nor infinite. -/
def validateEmbedding (embedding : JsValue) : Bool :=
  match embedding with
  | .notArr => false
  | .arr xs =>
    if xs.length = 0 then false
    else xs.all validElem

/-- The SQL text of the upsert statement in part_021. -/
def upsertSql : String :=
  "INSERT INTO Identity (id, embedding, updatedAt) VALUES ($1, $2::vector, NOW()) ON CONFLICT (id) DO UPDATE SET embedding = $2::vector, updatedAt = NOW()"

/-- upsertIdentityEmbedding from part_021: throws unless the embedding
validates, then issues the upsert statement. -/
def upsertIdentityEmbedding (identityId : String) (embedding : JsValue) : Except String SqlCall :=
  if !validateEmbedding embedding then
    .error "Invalid embedding: must be a non-empty array of finite numbers"
  else
    let xs := match embedding with
      | .arr xs => xs
      | .notArr => []
    .ok { sql := upsertSql, params := [identityId, vectorLiteral xs] }

/-- One row of the Identity table as the similarity query reads it. -/
structure IdentityRow where
  id : String
  embedding : Option (List ℚ)

/-- Ascending order on result rows by their recorded distance. -/
def distLe (a b : String × ℚ) : Prop := a.2 ≤ b.2

instance : DecidableRel distLe := fun a b => inferInstanceAs (Decidable (a.2 ≤ b.2))

instance : IsTotal (String × ℚ) distLe := ⟨fun a b => le_total a.2 b.2⟩

instance : IsTrans (String × ℚ) distLe := ⟨fun _ _ _ h1 h2 => le_trans h1 h2⟩

/-- Modelled from the spec: the Postgres evaluation of the similarity
query issued by findSimilarIdentities (its executor is not part of the
repository).  Rows whose embedding is not null and whose distance to the
query vector is below the threshold are kept, ordered ascending by
distance, and the first limit rows are returned.  dist is the denotation
of the pgvector distance operator. -/
def runSimilarityQuery (dist : List ℚ → List ℚ → ℚ) (db : List IdentityRow)
    (q : List ℚ) (threshold : ℚ) (limit : ℕ) : List (String × ℚ) :=
  ((db.filterMap (fun r =>
      match r.embedding with
      | none => none
      | some e => if dist e q < threshold then some (r.id, dist e q) else none)).insertionSort
    distLe).take limit

/-- findSimilarIdentities from part_021: validates the query embedding,
the limit (positive integer) and the threshold (positive finite) before
any database call, then issues the similarity query, whose result is
given by runSimilarityQuery. -/
def findSimilarIdentities (dist : List ℚ → List ℚ → ℚ) (db : List IdentityRow)
    (queryEmbedding : JsValue) (limit threshold : JsNum) :
    Except String (List (String × ℚ)) :=
  if !validateEmbedding queryEmbedding then
    .error "Invalid query embedding: must be a non-empty array of finite numbers"
  else if limit.leZero || !limit.isIntegerb then
    .error "Invalid limit: must be a positive integer"
  else if threshold.leZero || !threshold.isFiniteb then
    .error "Invalid threshold: must be a positive finite number"
  else
    .ok (runSimilarityQuery dist db (extractNums queryEmbedding)
          threshold.toRatVal limit.toNatVal)

end Part021

namespace VectorTs

/-- One row of the identity table as the vector.ts similarity query
reads it. -/
structure IdentityRow where
  address : String
  ai_embedding : Option (List ℚ)

/-- Modelled from the spec: the Postgres evaluation of the similarity
statement issued by vector.ts findSimilarIdentities (its executor is not
part of the repository).  Rows whose embedding is not null are ordered
ascending by distance to the query vector and the first k rows are
returned; this variant has no threshold filter, and a LIMIT parameter
that is not a non-negative integer makes the statement fail instead of
returning rows. -/
def runSimilarQuery (dist : List ℚ → List ℚ → ℚ) (db : List IdentityRow)
    (q : List ℚ) (k : JsNum) : Except String (List (String × ℚ)) :=
  match k with
  | .num kq =>
    if kq.den = 1 ∧ 0 ≤ kq then
      .ok (((db.filterMap (fun r =>
        match r.ai_embedding with
        | none => none
        | some e => some (r.address, dist e q))).insertionSort Part021.distLe).take
          kq.num.toNat)
    else .error "invalid LIMIT parameter"
  | _ => .error "invalid LIMIT parameter"

/-- The overall result of a vector.ts findSimilarIdentities call: the
validation performed by the function itself, then the issued query as
evaluated by the modelled executor. -/
def findSimilarIdentitiesResult (dist : List ℚ → List ℚ → ℚ)
    (db : List IdentityRow) (embedding : JsValue) (k : JsNum) :
    Except String (List (String × ℚ)) :=
  match findSimilarIdentities embedding k with
  | .error e => .error e
  | .ok _ => runSimilarQuery dist db (extractNums embedding) k

end VectorTs

/-! SIWE verification: the verifySignature snippet from the security
guide (src/unnamed/part_003), over a Challenge Store keyed by nonce. -/

/-- Parsed SIWE message fields used by the verification snippet (the
textual parsing performed by the SiweMessage constructor of the siwe
library is outside the repository; the snippet only reads these
fields). -/
structure SiweMessage where
  domain : String
  address : String
  nonce : String
  chainId : ℕ
  issuedAt : ℤ
  expirationTime : Option ℤ
deriving DecidableEq

/-- An EIP-191 signature, abstracted to the address whose key produced
it: ideal cryptographic recovery returns exactly the producing
address. -/
structure EthSignature where
  producedBy : String
deriving DecidableEq

/-- ASCII lower-casing of one character, for the case-insensitive hex
address comparison. -/
def lowerChar (c : Char) : Char :=
  if c.toNat ≥ 65 ∧ c.toNat ≤ 90 then Char.ofNat (c.toNat + 32) else c

/-- ASCII lower-casing of a string. -/
def lowerStr (s : String) : String := ⟨s.data.map lowerChar⟩

/-- Modelled from the spec: the per-nonce record of the Challenge Store
(getNonceFromDB and markNonceAsUsed are referenced by the repository but
not defined in it): a used flag plus the creation time. -/
structure NonceRecord where
  used : Bool
  created : ℤ
deriving DecidableEq

/-- The Challenge Store: an association of nonces to their records. -/
abbrev NonceStore := List (String × NonceRecord)

/-- Modelled from the spec: look a nonce up in the Challenge Store. -/
def getNonceFromDB : NonceStore → String → Option NonceRecord
  | [], _ => none
  | (k, r) :: rest, n => if k = n then some r else getNonceFromDB rest n

/-- Modelled from the spec: mark a nonce as used in the Challenge
Store. -/
def markNonceAsUsed : NonceStore → String → NonceStore
  | [], _ => []
  | (k, r) :: rest, n =>
    if k = n then (k, { r with used := true }) :: markNonceAsUsed rest n
    else (k, r) :: markNonceAsUsed rest n

/-- Modelled from the spec: the signature check done by the siwe library
inside siweMessage.verify — recover the signer address from the
signature, compare it case-insensitively to the address claimed in the
message, and check issuedAt and expirationTime against the current
time. -/
def siweVerify (m : SiweMessage) (signature : EthSignature) (now : ℤ) : Bool :=
  (lowerStr signature.producedBy == lowerStr m.address) &&
  decide (m.issuedAt ≤ now) &&
  (match m.expirationTime with
   | some t => decide (now < t)
   | none => true)

/-- verifySignature from the security guide (src/unnamed/part_003): look
the nonce up and fail if it is absent or already used, verify the
signature, then mark the nonce used and return the address together with
the updated Challenge Store. -/
def verifySignature (store : NonceStore) (m : SiweMessage)
    (signature : EthSignature) (now : ℤ) : Except String (String × NonceStore) :=
  match getNonceFromDB store m.nonce with
  | none => .error "Invalid or used nonce"
  | some r =>
    if r.used then .error "Invalid or used nonce"
    else if siweVerify m signature now then
      .ok (m.address, markNonceAsUsed store m.nonce)
    else .error "Signature verification failed"

/-- One verification attempt against the store. -/
structure VerifyCall where
  msg : SiweMessage
  signature : EthSignature
  now : ℤ

/-- The Challenge Store after a verification attempt, successful or
not. -/
def applyCall (s : NonceStore) (c : VerifyCall) : NonceStore :=
  match verifySignature s c.msg c.signature c.now with
  | .ok p => p.2
  | .error _ => s

/-- The Challenge Store after a sequence of verification attempts. -/
def runCalls (s : NonceStore) (cs : List VerifyCall) : NonceStore :=
  cs.foldl applyCall s

/-- The nonce is present in the store and marked used. -/
def nonceUsed (s : NonceStore) (n : String) : Prop :=
  ∃ r, getNonceFromDB s n = some r ∧ r.used = true

/-! The POST /api/auth/verify route handler, embedded in
docs/IMPLEMENTATION_SUMMARY.md. -/

/-- Outcome of the auraAuth.verify call as the route observes it: a
successful verification carrying address and chain id, a typed failure
carrying an error string, or a thrown exception. -/
inductive VerifyOutcome where
  | ok (address : String) (chainId : ℕ)
  | fail (error : String)
  | thrown
deriving DecidableEq

/-- Client-visible JSON body of a verify route response; absent fields
are none. -/
structure VerifyBody where
  success : Option Bool
  error : Option String
  sessionAddress : Option String
  sessionChainId : Option ℕ
  sessionAuthenticated : Option Bool
deriving DecidableEq

/-- The body with every field absent. -/
def emptyBody : VerifyBody :=
  { success := none, error := none, sessionAddress := none
    sessionChainId := none, sessionAuthenticated := none }

/-- An HTTP response: status code plus JSON body. -/
structure ApiResponse where
  status : ℕ
  body : VerifyBody
deriving DecidableEq

/-- The POST /api/auth/verify handler: method check, body presence check
(JS falsiness: an absent or empty string field fails it), dispatch on the
auraAuth.verify outcome.  A typed verification failure surfaces
result.error verbatim with status 400; only the catch branch produces the
generic Verification failed message with status 500. -/
def verifyHandler (method : String) (message signature : Option String)
    (outcome : VerifyOutcome) : ApiResponse :=
  if method ≠ "POST" then
    { status := 405, body := { emptyBody with error := some "Method not allowed" } }
  else if message.getD "" = "" ∨ signature.getD "" = "" then
    { status := 400, body := { emptyBody with error := some "Message and signature are required" } }
  else
    match outcome with
    | .fail e =>
      { status := 400, body := { emptyBody with success := some false, error := some e } }
    | .thrown =>
      { status := 500, body := { emptyBody with success := some false, error := some "Verification failed" } }
    | .ok a ch =>
      { status := 200,
        body := { emptyBody with
                  success := some true,
                  sessionAddress := some a,
                  sessionChainId := some ch,
                  sessionAuthenticated := some true } }

/-! Session manager: packages/next-auth/src/session.ts and the demo-site
API routes that use it. -/

/-- Optional cookie attributes (the TS cookieOptions object; absent
fields are none). -/
structure CookieOptions where
  secure : Option Bool := none
  httpOnly : Option Bool := none
  maxAge : Option ℕ := none
  sameSite : Option String := none
deriving DecidableEq

/-- AuthConfig from packages/next-auth/src/types.ts. -/
structure AuthConfig where
  secret : String
  cookieName : Option String := none
  cookieOptions : Option CookieOptions := none
deriving DecidableEq

/-- The cookie options of defaultConfig in session.ts, as a function of
the NODE_ENV environment variable. -/
def defaultCookieOptions (nodeEnv : String) : CookieOptions :=
  { secure := some (nodeEnv == "production"),
    httpOnly := some true,
    maxAge := some (24 * 60 * 60),
    sameSite := some "lax" }

/-- The cookie name of defaultConfig in session.ts. -/
def defaultCookieName : String := "aura-session"

/-- JS object spread of two cookie option records: fields present in the
second override fields of the first, field by field. -/
def spreadCookieOptions (a b : CookieOptions) : CookieOptions :=
  { secure := b.secure <|> a.secure,
    httpOnly := b.httpOnly <|> a.httpOnly,
    maxAge := b.maxAge <|> a.maxAge,
    sameSite := b.sameSite <|> a.sameSite }

/-- The iron-session configuration computed inside getSession. -/
structure SessionConfig where
  password : String
  cookieName : String
  cookieOptions : CookieOptions
deriving DecidableEq

/-- The sessionConfig value built at the top of getSession in
session.ts. -/
def sessionConfigOf (config : AuthConfig) (nodeEnv : String) : SessionConfig :=
  { password := config.secret,
    cookieName := config.cookieName.getD defaultCookieName,
    cookieOptions :=
      spreadCookieOptions (defaultCookieOptions nodeEnv) (config.cookieOptions.getD {}) }

/-- Session fields as read off the decrypted cookie; a fresh session has
every field absent. -/
structure RawSession where
  address : Option String := none
  chainId : Option ℕ := none
  isAuthenticated : Option Bool := none
  nonce : Option String := none
deriving DecidableEq

/-- The session cookie as the server sees it: absent, or sealed under a
secret.  A value sealed under a different secret than the server key
fails decryption (tampered or undecryptable cookie). -/
inductive Cookie where
  | absent
  | sealed (secret : String) (data : RawSession)
deriving DecidableEq

/-- Modelled from the spec: getIronSession of the iron-session library —
decrypt the cookie under the configured password; an absent, tampered or
undecryptable cookie yields a fresh empty session, never a crash. -/
def getIronSession (password : String) (c : Cookie) : RawSession :=
  match c with
  | .absent => {}
  | .sealed s d => if s = password then d else {}

/-- getSession from packages/next-auth/src/session.ts: build the
iron-session config, read the session, and if it is not authenticated
reset it to the default unauthenticated shape (empty address, chain id
1, isAuthenticated false). -/
def getSession (config : AuthConfig) (nodeEnv : String) (c : Cookie) : RawSession :=
  let sessionConfig := sessionConfigOf config nodeEnv
  let session := getIronSession sessionConfig.password c
  if session.isAuthenticated.getD false then session
  else { session with isAuthenticated := some false, address := some "", chainId := some 1 }

/-- destroySession from session.ts: read the session via getSession, then
destroy it, which clears the cookie. -/
def destroySession (config : AuthConfig) (nodeEnv : String) (c : Cookie) : Cookie :=
  let _ := getSession config nodeEnv c
  .absent

/-- Modelled from the spec: saving a session seals its data under the
configured password (encrypted, integrity-protected cookie). -/
def sealSession (password : String) (d : RawSession) : Cookie := .sealed password d

/-- The default unauthenticated session shape. -/
def defaultSessionShape : RawSession :=
  { address := some "", chainId := some 1, isAuthenticated := some false, nonce := none }

/-- getSessionConfig from apps/demo-site/lib/api-utils.ts: the secret is
the IRON_SESSION_SECRET environment variable, or the hardcoded fallback
constant when the variable is unset. -/
def getSessionConfig (ironSessionSecretEnv : Option String) : AuthConfig :=
  { secret := ironSessionSecretEnv.getD "default-secret-change-me" }

/-- JS a || b on strings (empty string is falsy). -/
def jsOrStr (a b : String) : String := if a = "" then b else a

/-- JS a || b on numbers (zero is falsy). -/
def jsOrNat (a b : ℕ) : ℕ := if a = 0 then b else a

/-- Client-visible body of the GET /api/auth/session route. -/
structure SessionRouteBody where
  address : String
  chainId : ℕ
  isAuthenticated : Bool
deriving DecidableEq

/-- The GET /api/auth/session handler body
(apps/demo-site/pages/api/auth/session.ts): reads the session under the
env-derived config and reports its fields with JS || defaults. -/
def sessionRoute (env : Option String) (nodeEnv : String) (c : Cookie) : SessionRouteBody :=
  let config := getSessionConfig env
  let session := getSession config nodeEnv c
  { address := jsOrStr (session.address.getD "") "",
    chainId := jsOrNat (session.chainId.getD 0) 1,
    isAuthenticated := session.isAuthenticated.getD false }

/-- Modelled from the spec: auraAuth.updateSession as the verify route
uses it — set address, chain id and the authenticated flag on the
session and save it under the configured secret. -/
def updateSession (password : String) (address : String) (chainId : ℕ) : Cookie :=
  sealSession password
    { address := some address, chainId := some chainId, isAuthenticated := some true }

/-- The cookie state after the POST /api/auth/verify route handles a
request with the given auraAuth.verify outcome: a successful
verification saves the authenticated session under the env-derived
secret; failures leave the cookie untouched. -/
def verifyRouteCookie (env : Option String) (outcome : VerifyOutcome) (c : Cookie) : Cookie :=
  match outcome with
  | .ok a ch => updateSession (getSessionConfig env).secret a ch
  | _ => c

/-- The cookie state after the POST /api/auth/signout route: the session
read under the env-derived config is destroyed, clearing the cookie. -/
def signoutRouteCookie (env : Option String) (nodeEnv : String) (c : Cookie) : Cookie :=
  destroySession (getSessionConfig env) nodeEnv c

/-! Metrics: trackVectorSearch from packages/trustmath/src/index.ts. -/

/-- The Prometheus metrics state touched by trackVectorSearch: the value
of the vector search counter per status label, and the list of histogram
observations (status label, observed value). -/
structure MetricsState where
  searchCount : String → ℕ
  latencyObs : List (String × ℤ)

/-- The finally block of trackVectorSearch: one counter increment and one
histogram observation under the given status label. -/
def recordSearch (m : MetricsState) (status : String) (duration : ℤ) : MetricsState :=
  { searchCount := fun s => if s = status then m.searchCount s + 1 else m.searchCount s,
    latencyObs := m.latencyObs ++ [(status, duration)] }

/-- The status label trackVectorSearch ends with: success unless the
wrapped call rejected, in which case the catch branch set it to error. -/
def searchStatus {ε α : Type} : Except ε α → String
  | .ok _ => "success"
  | .error _ => "error"

/-- trackVectorSearch from packages/trustmath/src/index.ts: run the
wrapped search (given here by its outcome and duration), set the status
label to error in the catch branch, record counter and histogram once in
the finally block, and propagate the result or the thrown error to the
caller unchanged. -/
def trackVectorSearch {ε α : Type} (outcome : Except ε α) (duration : ℤ)
    (m : MetricsState) : Except ε α × MetricsState :=
  match outcome with
  | .ok r => (.ok r, recordSearch m "success" duration)
  | .error e => (.error e, recordSearch m "error" duration)

/-! Theorems.  Supporting lemmas about the Challenge Store first. -/

theorem getNonce_markUsed_self (s : NonceStore) (n : String) :
    getNonceFromDB (markNonceAsUsed s n) n =
      (getNonceFromDB s n).map (fun r => { r with used := true }) := by
  induction s with
  | nil => rfl
  | cons p rest ih =>
    obtain ⟨k, r⟩ := p
    by_cases h : k = n
    · simp [getNonceFromDB, markNonceAsUsed, h]
    · simp [getNonceFromDB, markNonceAsUsed, h, ih]

theorem getNonce_markUsed_other (s : NonceStore) (n m : String) (h : n ≠ m) :
    getNonceFromDB (markNonceAsUsed s m) n = getNonceFromDB s n := by
  induction s with
  | nil => rfl
  | cons p rest ih =>
    obtain ⟨k, r⟩ := p
    by_cases hk : k = m
    · subst hk
      have hkn : ¬ k = n := fun e => h (e ▸ rfl)
      simp [getNonceFromDB, markNonceAsUsed, hkn, ih]
    · by_cases hn : k = n
      · subst hn
        simp [getNonceFromDB, markNonceAsUsed, hk]
      · simp [getNonceFromDB, markNonceAsUsed, hk, hn, ih]

theorem nonceUsed_markUsed (s : NonceStore) (n m : String) (h : nonceUsed s n) :
    nonceUsed (markNonceAsUsed s m) n := by
  obtain ⟨r, hr, hu⟩ := h
  by_cases hnm : n = m
  · subst hnm
    exact ⟨{ r with used := true }, by rw [getNonce_markUsed_self, hr]; rfl, rfl⟩
  · exact ⟨r, by rw [getNonce_markUsed_other _ _ _ hnm]; exact hr, hu⟩

theorem verifySignature_ok_inversion (s : NonceStore) (m : SiweMessage)
    (g : EthSignature) (now : ℤ) (a : String) (s2 : NonceStore)
    (h : verifySignature s m g now = .ok (a, s2)) :
    s2 = markNonceAsUsed s m.nonce ∧ a = m.address ∧
      ∃ r, getNonceFromDB s m.nonce = some r ∧ r.used = false := by
  cases hg : getNonceFromDB s m.nonce with
  | none => simp [verifySignature, hg] at h
  | some r =>
    simp only [verifySignature, hg] at h
    by_cases hu : r.used = true
    · rw [if_pos hu] at h
      exact absurd h (by simp)
    · rw [if_neg hu] at h
      by_cases hv : siweVerify m g now = true
      · rw [if_pos hv] at h
        simp only [Except.ok.injEq, Prod.mk.injEq] at h
        obtain ⟨ha, hs⟩ := h
        exact ⟨hs.symm, ha.symm, r, rfl, by simpa using hu⟩
      · rw [if_neg hv] at h
        exact absurd h (by simp)

theorem verifySignature_used_error (s : NonceStore) (m : SiweMessage)
    (g : EthSignature) (now : ℤ) (h : nonceUsed s m.nonce) :
    verifySignature s m g now = .error "Invalid or used nonce" := by
  obtain ⟨r, hr, hu⟩ := h
  simp [verifySignature, hr, hu]

theorem nonceUsed_applyCall (s : NonceStore) (c : VerifyCall) (n : String)
    (h : nonceUsed s n) : nonceUsed (applyCall s c) n := by
  unfold applyCall
  cases hv : verifySignature s c.msg c.signature c.now with
  | error e => exact h
  | ok p =>
    obtain ⟨a, s2⟩ := p
    obtain ⟨hs2, -, -⟩ := verifySignature_ok_inversion _ _ _ _ _ _ hv
    simpa [hs2] using nonceUsed_markUsed s n c.msg.nonce h

theorem nonceUsed_runCalls (s : NonceStore) (cs : List VerifyCall) (n : String)
    (h : nonceUsed s n) : nonceUsed (runCalls s cs) n := by
  induction cs generalizing s with
  | nil => exact h
  | cons c rest ih => exact ih _ (nonceUsed_applyCall s c n h)

/-- C1: once a nonce has been consumed by a successful verification (it is
marked used in the Challenge Store), every later verification attempt
whose message references that nonce fails with the invalid-or-used-nonce
error, whatever sequence of verification calls happened in between; in
particular a second call with the same message and signature fails. -/
theorem c1_nonce_never_validates_twice
    (s : NonceStore) (m : SiweMessage) (g : EthSignature) (now : ℤ)
    (a : String) (s1 : NonceStore)
    (h : verifySignature s m g now = .ok (a, s1)) :
    ∀ (cs : List VerifyCall) (m2 : SiweMessage) (g2 : EthSignature) (now2 : ℤ),
      m2.nonce = m.nonce →
      verifySignature (runCalls s1 cs) m2 g2 now2 = .error "Invalid or used nonce" := by
  intro cs m2 g2 now2 hn
  obtain ⟨hs1, -, r, hr, -⟩ := verifySignature_ok_inversion _ _ _ _ _ _ h
  have hused : nonceUsed s1 m.nonce := by
    refine ⟨{ r with used := true }, ?_, rfl⟩
    rw [hs1, getNonce_markUsed_self, hr]
    rfl
  apply verifySignature_used_error
  rw [hn]
  exact nonceUsed_runCalls s1 cs m.nonce hused

/-- Concrete data for the replay witness: a store holding one fresh nonce
and a message whose claimed address signed it (up to hex case). -/
def wStore : NonceStore := [("n1", { used := false, created := 0 })]

def wMsg : SiweMessage :=
  { domain := "example.com", address := "0xAb", nonce := "n1",
    chainId := 1, issuedAt := 0, expirationTime := none }

def wSig : EthSignature := { producedBy := "0xaB" }

theorem c1_witness :
    verifySignature wStore wMsg wSig 5 =
      .ok ("0xAb", [("n1", { used := true, created := 0 })]) ∧
    verifySignature (runCalls [("n1", { used := true, created := 0 })] []) wMsg wSig 5 =
      .error "Invalid or used nonce" :=
  ⟨rfl,
   c1_nonce_never_validates_twice wStore wMsg wSig 5 "0xAb"
     [("n1", { used := true, created := 0 })] rfl [] wMsg wSig 5 rfl⟩

/-- C2: a signature produced by an address other than the one claimed in
the message (distinct even under the case-insensitive hex comparison)
never verifies: verifySignature returns an error, never success. -/
theorem c2_mismatched_signer_rejected
    (s : NonceStore) (m : SiweMessage) (g : EthSignature) (now : ℤ)
    (h : lowerStr g.producedBy ≠ lowerStr m.address) :
    (verifySignature s m g now).isOk = false := by
  have hv : siweVerify m g now = false := by
    unfold siweVerify
    simp [beq_eq_false_iff_ne.mpr h]
  cases hg : getNonceFromDB s m.nonce with
  | none =>
    simp only [verifySignature, hg]
    rfl
  | some r =>
    simp only [verifySignature, hg]
    by_cases hu : r.used = true
    · rw [if_pos hu]
      rfl
    · rw [if_neg hu, if_neg (by simp [hv])]
      rfl

theorem c2_witness :
    lowerStr "0xdead" ≠ lowerStr "0xBEEF" ∧
    (verifySignature wStore { wMsg with address := "0xBEEF" }
      { producedBy := "0xdead" } 5).isOk = false :=
  ⟨by decide,
   c2_mismatched_signer_rejected wStore { wMsg with address := "0xBEEF" }
     { producedBy := "0xdead" } 5 (by decide)⟩

/-- C3 counterexample: two verify requests that fail for different
reasons produce different client-visible outputs.  A typed verification
failure (for example a reused nonce) surfaces its specific reason
verbatim in the response body, not the generic Verification failed
message, which only the exception branch produces. -/
theorem c3_distinct_failure_outputs_counterexample :
    (verifyHandler "POST" (some "msg") (some "sig")
        (.fail "Nonce has already been used")).body.error =
      some "Nonce has already been used" ∧
    (verifyHandler "POST" (some "msg") (some "sig") .thrown).body.error =
      some "Verification failed" ∧
    (verifyHandler "POST" (some "msg") (some "sig")
        (.fail "Nonce has already been used")).body ≠
      (verifyHandler "POST" (some "msg") (some "sig") .thrown).body := by
  refine ⟨rfl, rfl, ?_⟩
  decide

/-- C3 amended: the verify route does not surface a uniform generic
error.  A request with a missing field gets the fixed message that
message and signature are required (status 400); a typed auraAuth.verify
failure surfaces result.error verbatim to the caller (status 400); only a
thrown exception is mapped to the generic Verification failed message
(status 500), with the detail only logged. -/
theorem c3_amended_error_surface
    (message signature : Option String) (e : String)
    (hm : message.getD "" ≠ "") (hs : signature.getD "" ≠ "") :
    verifyHandler "POST" message signature (.fail e) =
      { status := 400, body := { emptyBody with success := some false, error := some e } } ∧
    verifyHandler "POST" message signature .thrown =
      { status := 500,
        body := { emptyBody with success := some false, error := some "Verification failed" } } ∧
    verifyHandler "POST" none signature (.fail e) =
      { status := 400,
        body := { emptyBody with error := some "Message and signature are required" } } := by
  refine ⟨?_, ?_, ?_⟩
  · simp [verifyHandler, hm, hs]
  · simp [verifyHandler, hm, hs]
  · simp [verifyHandler]

theorem c3_amended_witness :
    (some "msg" : Option String).getD "" ≠ "" ∧
    (some "sig" : Option String).getD "" ≠ "" ∧
    verifyHandler "POST" (some "msg") (some "sig") (.fail "Invalid nonce") =
      { status := 400,
        body := { emptyBody with success := some false, error := some "Invalid nonce" } } :=
  ⟨by decide, by decide,
   (c3_amended_error_surface (some "msg") (some "sig") "Invalid nonce"
     (by decide) (by decide)).1⟩

/-- C4 counterexample: in the vector.ts variant an embedding containing
Infinity passes validation (the code checks isNaN but not isFinite), so
both helpers issue a database call for it instead of rejecting it. -/
theorem c4_infinity_not_rejected_counterexample :
    VectorTs.findSimilarIdentities (.arr [.num .inf]) (.num 10) =
      .ok { sql := VectorTs.similarSql, params := ["[Infinity]", "10"] } ∧
    VectorTs.upsertIdentityEmbedding "0xabc" (.arr [.num .inf]) =
      .ok { sql := VectorTs.upsertSql, params := ["0xabc", "[Infinity]"] } := by
  exact ⟨rfl, rfl⟩

/-- C4 amended: the part_021 variant rejects every embedding that is
empty or contains NaN or an infinity before any database call, for both
upsertIdentityEmbedding and findSimilarIdentities; the vector.ts variant
rejects empty embeddings and embeddings containing NaN before any
database call in both helpers, but accepts embeddings containing
Infinity or -Infinity and issues the database call for them. -/
theorem c4_amended_embedding_validation :
    (∀ (xs : List JsVal) (idStr : String),
      (xs = [] ∨ JsVal.num .nan ∈ xs ∨ JsVal.num .inf ∈ xs ∨ JsVal.num .negInf ∈ xs) →
      (Part021.upsertIdentityEmbedding idStr (.arr xs)).isOk = false ∧
      (∀ dist db lim th,
        (Part021.findSimilarIdentities dist db (.arr xs) lim th).isOk = false)) ∧
    (∀ (xs : List JsVal) (idStr : String),
      (xs = [] ∨ JsVal.num .nan ∈ xs) →
      (VectorTs.upsertIdentityEmbedding idStr (.arr xs)).isOk = false ∧
      (∀ k, (VectorTs.findSimilarIdentities (.arr xs) k).isOk = false)) ∧
    (VectorTs.findSimilarIdentities (.arr [.num .inf]) (.num 10)).isOk = true ∧
    (VectorTs.upsertIdentityEmbedding "0xabc" (.arr [.num .negInf])).isOk = true := by
  refine ⟨?_, ?_, rfl, rfl⟩
  · intro xs idStr hbad
    have hval : Part021.validateEmbedding (.arr xs) = false := by
      rcases hbad with h0 | hm | hm | hm
      · subst h0
        rfl
      all_goals
        have hne : ¬ xs.length = 0 := by
          intro hl
          rw [List.length_eq_zero] at hl
          subst hl
          simp at hm
      all_goals
        have hall : xs.all Part021.validElem = false := by
          rw [Bool.eq_false_iff]
          intro hAll
          exact absurd (List.all_eq_true.mp hAll _ hm) (by decide)
      all_goals
        simp only [Part021.validateEmbedding]
        rw [if_neg hne]
        exact hall
    refine ⟨?_, ?_⟩
    · unfold Part021.upsertIdentityEmbedding
      rw [hval]
      rfl
    · intro dist db lim th
      unfold Part021.findSimilarIdentities
      rw [hval]
      rfl
  · intro xs idStr hbad
    have hval : ∃ msg, VectorTs.validateEmbedding (.arr xs) = .error msg := by
      rcases hbad with h0 | hm
      · subst h0
        exact ⟨"Embedding cannot be empty", rfl⟩
      · refine ⟨"Embedding must contain only valid numbers", ?_⟩
        have hne : ¬ xs.length = 0 := by
          intro hl
          rw [List.length_eq_zero] at hl
          subst hl
          simp at hm
        have hall : ¬ (xs.all VectorTs.validNum = true) := by
          intro hAll
          exact absurd (List.all_eq_true.mp hAll _ hm) (by decide)
        simp only [VectorTs.validateEmbedding]
        rw [if_neg hne, if_neg hall]
    obtain ⟨msg, hmsg⟩ := hval
    refine ⟨?_, ?_⟩
    · unfold VectorTs.upsertIdentityEmbedding
      rw [hmsg]
      rfl
    · intro k
      unfold VectorTs.findSimilarIdentities
      rw [hmsg]
      rfl

theorem c4_amended_witness :
    ([JsVal.num .nan] = ([] : List JsVal) ∨ JsVal.num .nan ∈ [JsVal.num .nan] ∨
      JsVal.num .inf ∈ [JsVal.num .nan] ∨ JsVal.num .negInf ∈ [JsVal.num .nan]) ∧
    (Part021.upsertIdentityEmbedding "id1" (.arr [JsVal.num .nan])).isOk = false :=
  ⟨by decide,
   (c4_amended_embedding_validation.1 [JsVal.num .nan] "id1" (by decide)).1⟩

/-- C5: for every findSimilarIdentities call that returns rows, in both
variants, the returned list holds at most k (limit) rows and is sorted
in ascending order of the recorded distance to the query embedding; in
the part_021 variant, the one that takes a threshold, every returned
distance is strictly below the threshold (the vector.ts variant has no
threshold parameter). -/
theorem c5_findSimilar_bounded_sorted_thresholded :
    (∀ (dist : List ℚ → List ℚ → ℚ) (db : List Part021.IdentityRow)
        (q : JsValue) (lim th : JsNum) (rows : List (String × ℚ)),
      Part021.findSimilarIdentities dist db q lim th = .ok rows →
      rows.length ≤ lim.toNatVal ∧
      List.Sorted Part021.distLe rows ∧
      ∀ p ∈ rows, p.2 < th.toRatVal) ∧
    (∀ (dist : List ℚ → List ℚ → ℚ) (db : List VectorTs.IdentityRow)
        (q : JsValue) (k : JsNum) (rows : List (String × ℚ)),
      VectorTs.findSimilarIdentitiesResult dist db q k = .ok rows →
      rows.length ≤ k.toNatVal ∧
      List.Sorted Part021.distLe rows) := by
  constructor
  · intro dist db q lim th rows h
    unfold Part021.findSimilarIdentities at h
    split_ifs at h
    all_goals
      simp only [Except.ok.injEq] at h
      subst h
      refine ⟨List.length_take_le _ _, ?_, ?_⟩
      · exact List.Pairwise.sublist (List.take_sublist _ _)
          (List.sorted_insertionSort Part021.distLe _)
      · intro p hp
        have hp2 := List.mem_of_mem_take hp
        rw [List.mem_insertionSort] at hp2
        obtain ⟨r, hr, he⟩ := List.mem_filterMap.mp hp2
        split at he
        · exact Option.noConfusion he
        · split at he
          · have hpe := Option.some.inj he
            subst hpe
            assumption
          · exact Option.noConfusion he
  · intro dist db q k rows h
    unfold VectorTs.findSimilarIdentitiesResult at h
    cases hv : VectorTs.findSimilarIdentities q k with
    | error e =>
      rw [hv] at h
      exact Except.noConfusion h
    | ok call =>
      rw [hv] at h
      cases k with
      | nan => exact Except.noConfusion h
      | inf => exact Except.noConfusion h
      | negInf => exact Except.noConfusion h
      | num kq =>
        dsimp only [VectorTs.runSimilarQuery] at h
        by_cases hk : kq.den = 1 ∧ 0 ≤ kq
        · rw [if_pos hk] at h
          simp only [Except.ok.injEq] at h
          subst h
          refine ⟨List.length_take_le _ _, ?_⟩
          exact List.Pairwise.sublist (List.take_sublist _ _)
            (List.sorted_insertionSort Part021.distLe _)
        · rw [if_neg hk] at h
          exact Except.noConfusion h

theorem c5_witness :
    Part021.findSimilarIdentities (fun _ _ => 0)
      [⟨"a", some [1]⟩, ⟨"b", none⟩] (.arr [.num (.num 1)]) (.num 2) (.num 1) =
      .ok [("a", 0)] ∧
    ([(("a", (0 : ℚ)))].length ≤ (JsNum.num 2).toNatVal ∧
     List.Sorted Part021.distLe [("a", (0 : ℚ))] ∧
     ∀ p ∈ [("a", (0 : ℚ))], p.2 < (JsNum.num 1).toRatVal) ∧
    VectorTs.findSimilarIdentitiesResult (fun _ _ => 0)
      [⟨"a", some [1]⟩, ⟨"b", none⟩] (.arr [.num (.num 1)]) (.num 2) =
      .ok [("a", 0)] ∧
    ([(("a", (0 : ℚ)))].length ≤ (JsNum.num 2).toNatVal ∧
     List.Sorted Part021.distLe [("a", (0 : ℚ))]) :=
  ⟨rfl,
   c5_findSimilar_bounded_sorted_thresholded.1 (fun _ _ => 0)
     [⟨"a", some [1]⟩, ⟨"b", none⟩] (.arr [.num (.num 1)]) (.num 2) (.num 1)
     [("a", 0)] rfl,
   rfl,
   c5_findSimilar_bounded_sorted_thresholded.2 (fun _ _ => 0)
     [⟨"a", some [1]⟩, ⟨"b", none⟩] (.arr [.num (.num 1)]) (.num 2)
     [("a", 0)] rfl⟩

/-- C6 counterexample: the vector.ts variant of findSimilarIdentities
performs no validation of its scalar input: with a valid embedding and
k equal to -1 (not a positive integer) it issues the similarity query
instead of rejecting the call. -/
theorem c6_no_scalar_validation_counterexample :
    VectorTs.findSimilarIdentities (.arr [.num (.num 1)]) (.num (-1)) =
      .ok { sql := VectorTs.similarSql, params := ["[1]", "-1"] } := rfl

/-- C6 amended: the part_021 variant of findSimilarIdentities validates
its scalar inputs before any database call — a limit that is not a
positive integer, or a threshold that is not a positive finite number, is
rejected with a validation error and no query is issued — while the
vector.ts variant has no threshold parameter and performs no validation
of k: whenever the embedding validates, it issues the query for any k. -/
theorem c6_amended_scalar_validation :
    (∀ dist db q lim th, ¬ JsNum.isPosInt lim →
      (Part021.findSimilarIdentities dist db q lim th).isOk = false) ∧
    (∀ dist db q lim th, ¬ JsNum.isPosFinite th →
      (Part021.findSimilarIdentities dist db q lim th).isOk = false) ∧
    (∀ xs k, VectorTs.validateEmbedding (.arr xs) = .ok true →
      (VectorTs.findSimilarIdentities (.arr xs) k).isOk = true) := by
  refine ⟨?_, ?_, ?_⟩
  · intro dist db q lim th hlim
    unfold Part021.findSimilarIdentities
    by_cases hval : Part021.validateEmbedding q = true
    · rw [if_neg (by simp [hval])]
      have hcond : (lim.leZero || !lim.isIntegerb) = true := by
        cases lim with
        | nan => rfl
        | inf => rfl
        | negInf => rfl
        | num qq =>
          simp only [JsNum.isPosInt] at hlim
          rcases Decidable.em (qq.den = 1) with hd | hd
          · have hq : qq ≤ 0 := by
              by_contra hq
              exact hlim ⟨lt_of_not_le hq, hd⟩
            simp [JsNum.leZero, hq]
          · simp [JsNum.isIntegerb, hd]
      rw [if_pos hcond]
      rfl
    · have hvf : Part021.validateEmbedding q = false := Bool.eq_false_iff.mpr hval
      rw [if_pos (by simp [hvf])]
      rfl
  · intro dist db q lim th hth
    unfold Part021.findSimilarIdentities
    by_cases hval : Part021.validateEmbedding q = true
    · rw [if_neg (by simp [hval])]
      by_cases hl : (lim.leZero || !lim.isIntegerb) = true
      · rw [if_pos hl]
        rfl
      · rw [if_neg hl]
        have hcond : (th.leZero || !th.isFiniteb) = true := by
          cases th with
          | nan => rfl
          | inf => rfl
          | negInf => rfl
          | num qq =>
            simp only [JsNum.isPosFinite] at hth
            have hq : qq ≤ 0 := le_of_not_lt hth
            simp [JsNum.leZero, hq]
        rw [if_pos hcond]
        rfl
    · have hvf : Part021.validateEmbedding q = false := Bool.eq_false_iff.mpr hval
      rw [if_pos (by simp [hvf])]
      rfl
  · intro xs k hval
    unfold VectorTs.findSimilarIdentities
    rw [hval]
    rfl

theorem c6_amended_witness :
    ¬ JsNum.isPosInt .nan ∧
    (Part021.findSimilarIdentities (fun _ _ => 0) []
      (.arr [.num (.num 1)]) .nan (.num 1)).isOk = false :=
  ⟨fun h => h,
   c6_amended_scalar_validation.1 (fun _ _ => 0) []
     (.arr [.num (.num 1)]) .nan (.num 1) (fun h => h)⟩

/-- C7: getSession called right after destroySession returns the default
unauthenticated session shape (empty address, default chain id 1,
isAuthenticated false), and the same default shape is returned when the
session cookie is absent or sealed under a key other than the configured
secret (not decryptable). -/
theorem c7_session_roundtrip (config : AuthConfig) (nodeEnv : String) (c : Cookie) :
    getSession config nodeEnv (destroySession config nodeEnv c) = defaultSessionShape ∧
    getSession config nodeEnv .absent = defaultSessionShape ∧
    ∀ s d, s ≠ config.secret →
      getSession config nodeEnv (.sealed s d) = defaultSessionShape := by
  refine ⟨rfl, rfl, ?_⟩
  intro s d hs
  simp only [getSession, sessionConfigOf, getIronSession]
  rw [if_neg hs]
  rfl

theorem c7_witness :
    "wrong" ≠ (AuthConfig.mk "secret0" none none).secret ∧
    getSession (AuthConfig.mk "secret0" none none) "test" (.sealed "wrong" {}) =
      defaultSessionShape :=
  ⟨by decide,
   (c7_session_roundtrip (AuthConfig.mk "secret0" none none) "test" .absent).2.2
     "wrong" {} (by decide)⟩

/-- C8: with no caller-supplied cookieOptions, the session cookie
configuration computed by getSession has httpOnly true, secure exactly
when NODE_ENV is production, sameSite lax and maxAge 86400 seconds (24
hours); caller-supplied cookieOptions override these defaults field by
field, with absent fields falling back to the defaults. -/
theorem c8_cookie_defaults (secret : String) (cname : Option String)
    (nodeEnv : String) (opts : CookieOptions) :
    (sessionConfigOf { secret := secret, cookieName := cname, cookieOptions := none }
        nodeEnv).cookieOptions =
      { secure := some (nodeEnv == "production"), httpOnly := some true,
        maxAge := some 86400, sameSite := some "lax" } ∧
    ((nodeEnv == "production") = true ↔ nodeEnv = "production") ∧
    (sessionConfigOf { secret := secret, cookieName := cname, cookieOptions := some opts }
        nodeEnv).cookieOptions =
      { secure := opts.secure <|> some (nodeEnv == "production"),
        httpOnly := opts.httpOnly <|> some true,
        maxAge := opts.maxAge <|> some 86400,
        sameSite := opts.sameSite <|> some "lax" } := by
  refine ⟨?_, beq_iff_eq, rfl⟩
  simp [sessionConfigOf, spreadCookieOptions, defaultCookieOptions]

/-- C9: when the IRON_SESSION_SECRET environment variable is unset,
getSessionConfig returns the hardcoded fallback secret
default-secret-change-me, a 24-character constant below the recommended
32-character minimum; the session route then successfully decrypts
cookies sealed under this known constant, and the verify route seals the
authenticated session under it. -/
theorem c9_fallback_secret :
    getSessionConfig none =
      { secret := "default-secret-change-me", cookieName := none, cookieOptions := none } ∧
    (getSessionConfig none).secret.length = 24 ∧
    (getSessionConfig none).secret.length < 32 ∧
    (∀ nodeEnv d, d.isAuthenticated = some true →
      sessionRoute none nodeEnv (.sealed "default-secret-change-me" d) =
        { address := jsOrStr (d.address.getD "") "",
          chainId := jsOrNat (d.chainId.getD 0) 1,
          isAuthenticated := true }) ∧
    (∀ a ch c, verifyRouteCookie none (.ok a ch) c =
      .sealed "default-secret-change-me"
        { address := some a, chainId := some ch,
          isAuthenticated := some true, nonce := none }) := by
  refine ⟨rfl, rfl, by decide, ?_, fun a ch c => rfl⟩
  intro nodeEnv d hd
  unfold sessionRoute getSession getSessionConfig sessionConfigOf getIronSession
  simp [hd]

theorem c9_witness :
    (RawSession.mk (some "0xA") (some 5) (some true) none).isAuthenticated = some true ∧
    sessionRoute none "test"
        (.sealed "default-secret-change-me"
          (RawSession.mk (some "0xA") (some 5) (some true) none)) =
      { address := jsOrStr ((RawSession.mk (some "0xA") (some 5) (some true) none).address.getD "") "",
        chainId := jsOrNat ((RawSession.mk (some "0xA") (some 5) (some true) none).chainId.getD 0) 1,
        isAuthenticated := true } :=
  ⟨rfl, c9_fallback_secret.2.2.2.1 "test" (RawSession.mk (some "0xA") (some 5) (some true) none) rfl⟩

/-- C10: every call to trackVectorSearch increments the vector search
counter exactly once, at the status label of the outcome and at no other
label, and appends exactly one histogram observation under that label;
the status label is success exactly when the wrapped function resolved
and error exactly when it rejected; and the result or the thrown error is
propagated to the caller unchanged. -/
theorem c10_trackVectorSearch_metrics {ε α : Type} (outcome : Except ε α)
    (d : ℤ) (m : MetricsState) :
    (trackVectorSearch outcome d m).1 = outcome ∧
    (∀ s, (trackVectorSearch outcome d m).2.searchCount s =
      if s = searchStatus outcome then m.searchCount s + 1 else m.searchCount s) ∧
    (trackVectorSearch outcome d m).2.latencyObs =
      m.latencyObs ++ [(searchStatus outcome, d)] ∧
    (searchStatus outcome = "success" ↔ ∃ r, outcome = .ok r) ∧
    (searchStatus outcome = "error" ↔ ∃ e, outcome = .error e) := by
  cases outcome with
  | ok r =>
    refine ⟨rfl, fun s => rfl, rfl, ?_, ?_⟩
    · exact ⟨fun _ => ⟨r, rfl⟩, fun _ => rfl⟩
    · constructor
      · intro hc
        have hne : ("success" : String) ≠ "error" := by decide
        exact absurd hc hne
      · rintro ⟨e, he⟩
        exact Except.noConfusion he
  | error e =>
    refine ⟨rfl, fun s => rfl, rfl, ?_, ?_⟩
    · constructor
      · intro hc
        have hne : ("error" : String) ≠ "success" := by decide
        exact absurd hc hne
      · rintro ⟨r, hr⟩
        exact Except.noConfusion hr
    · exact ⟨fun _ => ⟨e, rfl⟩, fun _ => rfl⟩
